import Mathlib

/-!
Shallow embedding of the state & metrics persistence manager of the
adaptive-neural-network repository (src/config.py and src/firebase_manager.py),
together with theorems settling the spec claims about it.

Python dictionaries are modelled as association lists over string keys
(`assocSet` is Python's `d[k] = v`: replace the binding in place when the key
is present, append otherwise).  The external Firestore store is modelled as
explicit state (`Firestore`), and the ambient conditions of one call — whether
the client is initialized, the client's clock reading `datetime.utcnow()`,
the store's own server clock, and which exception (if any) the store raises —
as an environment record (`Env`).  Raised-and-propagated exceptions become
`Except`; exceptions that the Python code catches and converts to a return
value are converted the same way here.  In-place mutation of a caller's dict
argument is made explicit: each save operation returns the final contents of
the argument dictionary as the last component of its result.
-/

/-- Values stored in a document field: strings, integers, and timestamps. -/
inductive Val where
  | str (s : String)
  | num (n : Int)
  | time (t : Nat)
deriving DecidableEq, Repr

/-- A Python dict (ordered string-keyed mapping), as an association list. -/
abbrev Doc := List (String × Val)

/-- Python dict assignment `d[k] = v`: replace the first binding of `k` in
place, or append a new binding when `k` is absent. -/
def assocSet {α : Type} : List (String × α) → String → α → List (String × α)
  | [], k, v => [(k, v)]
  | (k', v') :: rest, k, v =>
    if k' = k then (k, v) :: rest else (k', v') :: assocSet rest k v

/-- Python dict lookup `d.get(k)`. -/
def assocGet {α : Type} : List (String × α) → String → Option α
  | [], _ => none
  | (k', v) :: rest, k => if k' = k then some v else assocGet rest k

/-- Number of entries of an association list carrying a given key. -/
def countKey {α : Type} : List (String × α) → String → Nat
  | [], _ => 0
  | (k', _) :: rest, k => (if k' = k then 1 else 0) + countKey rest k

/-- The remote document store: the state collection keyed by document id
(`neural_network_states`) and the auto-id metrics collection
(`performance_metrics`). -/
structure Firestore where
  stateDocs : List (String × Doc)
  perfDocs : List Doc
deriving DecidableEq, Repr

/-- Exception classes distinguished by the `except` clauses of the source:
`FirebaseError` versus any other unexpected exception. -/
inductive PyErr where
  | firebaseError
  | otherError
deriving DecidableEq, Repr

/-- Ambient conditions of one manager call: whether `self.db` is truthy, the
client-clock reading `datetime.utcnow()` would return, the store's server-side
clock (never consulted by the source code), and the exception (if any) raised
by the store on a write (`doc_ref.set`) or a read (`doc_ref.get`). -/
structure Env where
  dbInit : Bool := true
  clientClock : Nat := 0
  serverClock : Nat := 0
  setError : Option PyErr := none
  getError : Option PyErr := none
deriving DecidableEq, Repr

/-- Metadata stamping of `save_network_state` (lines 77-78 of the source):
`state_data['last_updated'] = datetime.utcnow()` then
`state_data['network_id'] = network_id`, mutating the dict in place. -/
def stampState (env : Env) (network_id : String) (state_data : Doc) : Doc :=
  assocSet (assocSet state_data "last_updated" (Val.time env.clientClock))
    "network_id" (Val.str network_id)

/-- `FirebaseManager.save_network_state` (src/firebase_manager.py:58-94).
Returns the boolean result, the store after the call, and the final contents
of the caller's `state_data` dictionary (which the source mutates in place).
Every exception raised by the store is caught and converted to `False`. -/
def save_network_state (env : Env) (db : Firestore) (network_id : String)
    (state_data : Doc) : Bool × Firestore × Doc :=
  if !env.dbInit then (false, db, state_data)
  else
    let stamped := stampState env network_id state_data
    match env.setError with
    | some _ => (false, db, stamped)
    | none =>
      (true, { db with stateDocs := assocSet db.stateDocs network_id stamped },
        stamped)

/-- `FirebaseManager.load_network_state` (src/firebase_manager.py:96-130).
Returns the stored dict when the document exists; returns `none` when the
client is uninitialized, when no document exists, and when the store raises
(both `FirebaseError` and unexpected exceptions are caught). -/
def load_network_state (env : Env) (db : Firestore) (network_id : String) :
    Option Doc :=
  if !env.dbInit then none
  else
    match env.getError with
    | some _ => none
    | none => assocGet db.stateDocs network_id

/-- Metadata stamping of `save_performance_metrics` (lines 151-152):
`metrics['timestamp'] = datetime.utcnow()` then
`metrics['network_id'] = network_id`, mutating the dict in place. -/
def stampMetrics (env : Env) (network_id : String) (metrics : Doc) : Doc :=
  assocSet (assocSet metrics "timestamp" (Val.time env.clientClock))
    "network_id" (Val.str network_id)

/-- `FirebaseManager.save_performance_metrics` (src/firebase_manager.py:132-168).
Inserts a fresh auto-id document; returns the boolean result, the store after
the call, and the final contents of the caller's `metrics` dictionary. -/
def save_performance_metrics (env : Env) (db : Firestore) (network_id : String)
    (metrics : Doc) : Bool × Firestore × Doc :=
  if !env.dbInit then (false, db, metrics)
  else
    let stamped := stampMetrics env network_id metrics
    match env.setError with
    | some _ => (false, db, stamped)
    | none => (true, { db with perfDocs := db.perfDocs ++ [stamped] }, stamped)

/-- Sort key of a metrics document: its `timestamp` field (0 when absent). -/
def tsOf (d : Doc) : Nat :=
  match assocGet d "timestamp" with
  | some (Val.time t) => t
  | _ => 0

/-- Timestamp-descending order on metrics documents. -/
def descRel (a b : Doc) : Prop := tsOf b ≤ tsOf a

instance : DecidableRel descRel := fun a b =>
  inferInstanceAs (Decidable (tsOf b ≤ tsOf a))

instance : IsTotal Doc descRel :=
  ⟨fun a b => Nat.le_total (tsOf b) (tsOf a)⟩

instance : IsTrans Doc descRel :=
  ⟨fun _ _ _ hab hbc => Nat.le_trans hbc hab⟩

/-- Modelled from the spec: src/firebase_manager.py truncates at line 188 in the
middle of the query chain of `get_performance_history` — after the guard on the
uninitialized client and the opening `.where('network_id', '` of the equality
filter, the ordering, the limit handling, and the execution of the query are
missing from the source.  Per the spec those are: order by `timestamp`
descending, truncate to at most `limit` records (default 100), and treat
`limit` ≤ 0 as no results. -/
def get_performance_history (env : Env) (db : Firestore) (network_id : String)
    (limit : Int) : List Doc :=
  if !env.dbInit then []
  else if limit ≤ 0 then []
  else
    ((db.perfDocs.filter
        (fun d => assocGet d "network_id" == some (Val.str network_id))).insertionSort
      descRel).take limit.toNat

/-- `get_performance_history` at its default `limit` of 100. -/
def get_history_default (env : Env) (db : Firestore) (network_id : String) :
    List Doc :=
  get_performance_history env db network_id 100

/-- Errors raised by `FirebaseConfig.validate` (src/config.py:36-44):
`ValueError` for a missing parameter, `FileNotFoundError` for a credential
path that names no file. -/
inductive ConfigError where
  | missingParameter (param : String)
  | credentialNotFound (path : String)
deriving DecidableEq, Repr

/-- Observable actions against the outside world, used to state that an
operation performs (or does not perform) authentication, store connection, or
a filesystem existence check. -/
inductive Effect where
  | fsExistsCheck (path : String)
  | authenticate
  | connect
deriving DecidableEq, Repr

/-- Python truthiness of an optional string: `None` and `""` are falsy. -/
def optStrFalsy : Option String → Bool
  | none => true
  | some s => s.isEmpty

/-- `FirebaseConfig` (src/config.py:28-34). -/
structure FirebaseConfig where
  project_id : Option String := none
  credentials_path : Option String := none
  collection_name : String := "neural_network_states"
  performance_collection : String := "performance_metrics"
deriving DecidableEq, Repr

/-- `FirebaseConfig.validate` (src/config.py:36-44), with the filesystem passed
in as a predicate and the observable actions of the call returned as a trace.
Raised exceptions become `Except.error`. -/
def FirebaseConfig.validate (cfg : FirebaseConfig)
    (fileExists : String → Bool) : Except ConfigError Bool × List Effect :=
  if optStrFalsy cfg.project_id then
    (Except.error (ConfigError.missingParameter "FIREBASE_PROJECT_ID"), [])
  else if optStrFalsy cfg.credentials_path then
    (Except.error (ConfigError.missingParameter "FIREBASE_CREDENTIALS_PATH"), [])
  else
    let path := cfg.credentials_path.getD ""
    if !fileExists path then
      (Except.error (ConfigError.credentialNotFound path),
        [Effect.fsExistsCheck path])
    else
      (Except.ok true, [Effect.fsExistsCheck path])

/-- A registered Firebase app (an entry of `firebase_admin._apps`). -/
structure App where
  projectId : String
deriving DecidableEq, Repr

/-- Process-wide state of the `firebase_admin` module: the registered apps. -/
structure ProcessState where
  apps : List App
deriving DecidableEq, Repr

/-- Ambient conditions of `_initialize_firebase`: the exception (if any) raised
while loading the credential certificate, and the exception (if any) raised
while constructing the Firestore client. -/
structure InitEnv where
  certificateError : Option PyErr := none
  clientError : Option PyErr := none
deriving DecidableEq, Repr

/-- `FirebaseManager._initialize_firebase` (src/firebase_manager.py:28-56).
When no app is registered process-wide it loads the credential certificate
(authentication), registers a fresh app; otherwise it reuses the registered
app via `firebase_admin.get_app()`.  Either way it then constructs the
Firestore client (connection).  All exceptions are logged and re-raised. -/
def initialize_firebase (env : InitEnv) (ps : ProcessState)
    (cfg : FirebaseConfig) : Except PyErr (App × ProcessState) × List Effect :=
  if ps.apps.isEmpty then
    match env.certificateError with
    | some e => (Except.error e, [Effect.authenticate])
    | none =>
      let app : App := { projectId := cfg.project_id.getD "" }
      let ps' : ProcessState := { apps := ps.apps ++ [app] }
      match env.clientError with
      | some e => (Except.error e, [Effect.authenticate, Effect.connect])
      | none => (Except.ok (app, ps'), [Effect.authenticate, Effect.connect])
  else
    let app := ps.apps.headD { projectId := "" }
    match env.clientError with
    | some e => (Except.error e, [Effect.connect])
    | none => (Except.ok (app, ps), [Effect.connect])

/-! ### Concrete call scenarios used by witnesses and counterexamples -/

/-- A healthy call environment whose client clock (5) and the store's server
clock (7) disagree, so the two stamps are distinguishable. -/
def envC1 : Env := { clientClock := 5, serverClock := 7 }

/-- An environment where the store raises a `FirebaseError` on a read. -/
def envGetErr : Env := { getError := some PyErr.firebaseError }

/-- An environment where the store raises a `FirebaseError` on a write. -/
def envSetErrFb : Env := { setError := some PyErr.firebaseError }

/-- An environment where a write raises an unexpected (non-Firebase) error. -/
def envSetErrOther : Env := { setError := some PyErr.otherError }

/-- The empty store. -/
def dbEmpty : Firestore := { stateDocs := [], perfDocs := [] }

/-! ### Helper lemmas about association lists -/

theorem assocGet_assocSet_self {α : Type} (l : List (String × α)) (k : String)
    (v : α) : assocGet (assocSet l k v) k = some v := by
  induction l with
  | nil => simp [assocSet, assocGet]
  | cons hd tl ih =>
    obtain ⟨k', v'⟩ := hd
    by_cases h : k' = k <;> simp [assocSet, assocGet, h, ih]

theorem assocGet_assocSet_ne {α : Type} (l : List (String × α)) (k k' : String)
    (v : α) (h : k' ≠ k) : assocGet (assocSet l k v) k' = assocGet l k' := by
  induction l with
  | nil => simp [assocSet, assocGet, Ne.symm h]
  | cons hd tl ih =>
    obtain ⟨k₀, v₀⟩ := hd
    by_cases h₀ : k₀ = k
    · subst h₀
      simp [assocSet, assocGet, h, Ne.symm h]
    · by_cases h₁ : k₀ = k' <;>
        simp [assocSet, assocGet, h, Ne.symm h, h₀, h₁, ih]

theorem countKey_assocSet {α : Type} (l : List (String × α)) (k : String)
    (v : α) : countKey (assocSet l k v) k = max (countKey l k) 1 := by
  induction l with
  | nil => simp [assocSet, countKey]
  | cons hd tl ih =>
    obtain ⟨k₀, v₀⟩ := hd
    by_cases h : k₀ = k
    · simp [assocSet, countKey, h]
    · simp [assocSet, countKey, h, ih]

theorem stampState_get_last_updated (env : Env) (id : String) (p : Doc) :
    assocGet (stampState env id p) "last_updated" =
      some (Val.time env.clientClock) := by
  unfold stampState
  rw [assocGet_assocSet_ne _ _ _ _ (by decide), assocGet_assocSet_self]

theorem stampState_get_network_id (env : Env) (id : String) (p : Doc) :
    assocGet (stampState env id p) "network_id" = some (Val.str id) := by
  unfold stampState
  rw [assocGet_assocSet_self]

theorem stampState_get_other (env : Env) (id : String) (p : Doc) (k : String)
    (h₁ : k ≠ "last_updated") (h₂ : k ≠ "network_id") :
    assocGet (stampState env id p) k = assocGet p k := by
  unfold stampState
  rw [assocGet_assocSet_ne _ _ _ _ h₂, assocGet_assocSet_ne _ _ _ _ h₁]

theorem stampMetrics_get_timestamp (env : Env) (id : String) (p : Doc) :
    assocGet (stampMetrics env id p) "timestamp" =
      some (Val.time env.clientClock) := by
  unfold stampMetrics
  rw [assocGet_assocSet_ne _ _ _ _ (by decide), assocGet_assocSet_self]

theorem stampMetrics_get_network_id (env : Env) (id : String) (p : Doc) :
    assocGet (stampMetrics env id p) "network_id" = some (Val.str id) := by
  unfold stampMetrics
  rw [assocGet_assocSet_self]

theorem save_network_state_ok (env : Env) (db : Firestore) (id : String)
    (p : Doc) (h₁ : env.dbInit = true) (h₂ : env.setError = none) :
    save_network_state env db id p =
      (true, { db with stateDocs := assocSet db.stateDocs id (stampState env id p) },
        stampState env id p) := by
  simp [save_network_state, h₁, h₂]

theorem load_network_state_ok (env : Env) (db : Firestore) (id : String)
    (h₁ : env.dbInit = true) (h₂ : env.getError = none) :
    load_network_state env db id = assocGet db.stateDocs id := by
  simp [load_network_state, h₁, h₂]

/-! ### Claim theorems -/

/-- C1 counterexample: in a call where the client clock reads 5 while the
store's server clock reads 7, the stored record's `last_updated` field is the
client-clock value 5 (the source stamps `datetime.utcnow()`), not the store's
server time — refuting the claim that `last_updated` is stamped with the
server-side time and never a client-clock value. -/
theorem save_last_updated_is_client_clock_cex :
    assocGet ((save_network_state envC1 dbEmpty "n1" []).2.1.stateDocs) "n1" =
      some [("last_updated", Val.time envC1.clientClock),
        ("network_id", Val.str "n1")]
    ∧ envC1.clientClock ≠ envC1.serverClock := by
  exact ⟨rfl, by decide⟩

/-- C1 (amended): on a successful `save_network_state` call, the stored record
is the payload stamped in place, its `last_updated` field carries the client's
clock reading (`datetime.utcnow()`) at write time — not the store's server
time — and `network_id` is stamped into the stored payload. -/
theorem save_stamps_client_clock (env : Env) (db : Firestore) (id : String)
    (p : Doc) (h₁ : env.dbInit = true) (h₂ : env.setError = none) :
    assocGet (save_network_state env db id p).2.1.stateDocs id =
      some (stampState env id p)
    ∧ assocGet (stampState env id p) "last_updated" =
      some (Val.time env.clientClock)
    ∧ assocGet (stampState env id p) "network_id" = some (Val.str id) := by
  refine ⟨?_, stampState_get_last_updated env id p,
    stampState_get_network_id env id p⟩
  rw [save_network_state_ok env db id p h₁ h₂]
  exact assocGet_assocSet_self db.stateDocs id (stampState env id p)

/-- C1 witness: the amended claim at a concrete healthy call. -/
theorem save_stamps_client_clock_wit :
    assocGet (save_network_state envC1 dbEmpty "n1"
        [("w", Val.num 1)]).2.1.stateDocs "n1" =
      some (stampState envC1 "n1" [("w", Val.num 1)])
    ∧ assocGet (stampState envC1 "n1" [("w", Val.num 1)]) "last_updated" =
      some (Val.time envC1.clientClock)
    ∧ assocGet (stampState envC1 "n1" [("w", Val.num 1)]) "network_id" =
      some (Val.str "n1") :=
  save_stamps_client_clock envC1 dbEmpty "n1" [("w", Val.num 1)] rfl rfl

/-- C2 counterexample: on the empty store, a `load_network_state` call with no
error (the document simply does not exist) and a call during which the store
raises both return `none` — the NotFound outcome is conflated with the
transport/store failure outcome, refuting the claim that the two are
distinguishable. -/
theorem load_conflates_notfound_and_error_cex :
    load_network_state envC1 dbEmpty "n1" = none
    ∧ load_network_state envGetErr dbEmpty "n1" = none := by
  exact ⟨rfl, rfl⟩

/-- C2 (amended): `load_network_state` returns the stored record when the
document exists and no error occurs; it returns `None` when no document
exists, and also returns `None` on a transport/store error and when the
client is uninitialized — so the NotFound outcome is reported identically to
the failure outcomes, not distinctly. -/
theorem load_outcomes (env : Env) (db : Firestore) (id : String) :
    (env.dbInit = true → env.getError = none →
      load_network_state env db id = assocGet db.stateDocs id)
    ∧ (∀ e : PyErr, env.getError = some e →
      load_network_state env db id = none)
    ∧ (env.dbInit = false → load_network_state env db id = none) := by
  refine ⟨fun h₁ h₂ => load_network_state_ok env db id h₁ h₂, ?_, ?_⟩
  · intro e he
    unfold load_network_state
    cases hdb : env.dbInit <;> simp [he]
  · intro h
    simp [load_network_state, h]

/-- C3: round trip — loading after a successful save (no intervening save)
returns exactly the stamped payload, and that stamped payload agrees with the
caller's payload on every field other than the stamped `last_updated` and
`network_id` fields. -/
theorem save_load_roundtrip (env₁ env₂ : Env) (db : Firestore) (id : String)
    (p : Doc) (k : String)
    (h₁ : env₁.dbInit = true) (h₂ : env₁.setError = none)
    (h₃ : env₂.dbInit = true) (h₄ : env₂.getError = none)
    (hk₁ : k ≠ "last_updated") (hk₂ : k ≠ "network_id") :
    load_network_state env₂ (save_network_state env₁ db id p).2.1 id =
      some (stampState env₁ id p)
    ∧ assocGet (stampState env₁ id p) k = assocGet p k := by
  refine ⟨?_, stampState_get_other env₁ id p k hk₁ hk₂⟩
  rw [save_network_state_ok env₁ db id p h₁ h₂,
    load_network_state_ok env₂ _ id h₃ h₄]
  exact assocGet_assocSet_self db.stateDocs id (stampState env₁ id p)

/-- C3 witness: the round trip at a concrete payload and field. -/
theorem save_load_roundtrip_wit :
    load_network_state envC1
        (save_network_state envC1 dbEmpty "n1" [("w", Val.num 1)]).2.1 "n1" =
      some (stampState envC1 "n1" [("w", Val.num 1)])
    ∧ assocGet (stampState envC1 "n1" [("w", Val.num 1)]) "w" =
      assocGet [("w", Val.num 1)] "w" :=
  save_load_roundtrip envC1 envC1 dbEmpty "n1" [("w", Val.num 1)] "w"
    rfl rfl rfl rfl (by decide) (by decide)

/-- C4: upsert invariant — starting from a store holding at most one document
for an id, two successful saves with different payloads leave exactly one
document for that id, and its contents are exactly the stamped second payload
(a full replace carrying nothing of the first payload). -/
theorem save_upsert_single_doc (env₁ env₂ : Env) (db : Firestore) (id : String)
    (p₁ p₂ : Doc)
    (h₁ : env₁.dbInit = true) (h₂ : env₁.setError = none)
    (h₃ : env₂.dbInit = true) (h₄ : env₂.setError = none)
    (hdb : countKey db.stateDocs id ≤ 1) :
    countKey (save_network_state env₂
        (save_network_state env₁ db id p₁).2.1 id p₂).2.1.stateDocs id = 1
    ∧ assocGet (save_network_state env₂
        (save_network_state env₁ db id p₁).2.1 id p₂).2.1.stateDocs id =
      some (stampState env₂ id p₂) := by
  rw [save_network_state_ok env₁ db id p₁ h₁ h₂]
  rw [save_network_state_ok env₂ _ id p₂ h₃ h₄]
  constructor
  · show countKey (assocSet (assocSet db.stateDocs id (stampState env₁ id p₁))
      id (stampState env₂ id p₂)) id = 1
    rw [countKey_assocSet, countKey_assocSet]
    omega
  · exact assocGet_assocSet_self _ id (stampState env₂ id p₂)

/-- C4 witness: two saves of different payloads to the same id on the empty
store leave exactly one document, holding the stamped second payload. -/
theorem save_upsert_single_doc_wit :
    countKey (save_network_state envC1
        (save_network_state envC1 dbEmpty "n1"
          [("w", Val.num 1)]).2.1 "n1" [("v", Val.num 2)]).2.1.stateDocs "n1" = 1
    ∧ assocGet (save_network_state envC1
        (save_network_state envC1 dbEmpty "n1"
          [("w", Val.num 1)]).2.1 "n1" [("v", Val.num 2)]).2.1.stateDocs "n1" =
      some (stampState envC1 "n1" [("v", Val.num 2)]) :=
  save_upsert_single_doc envC1 envC1 dbEmpty "n1" [("w", Val.num 1)]
    [("v", Val.num 2)] rfl rfl rfl rfl (by decide)

/-- C5: every record returned by `get_performance_history` carries the queried
`network_id`; the result is sorted by `timestamp` descending; at most
`limit.toNat` records are returned; any nonpositive limit (every such limit is
`min k 0` for some `k`) yields no results rather than an unbounded query; and
the default limit is 100. -/
theorem get_history_bounded_filtered_sorted (env : Env) (db : Firestore)
    (id : String) (k : Int) :
    ((get_performance_history env db id k).all
      (fun d => assocGet d "network_id" == some (Val.str id)) = true)
    ∧ (get_performance_history env db id k).Pairwise descRel
    ∧ (get_performance_history env db id k).length ≤ k.toNat
    ∧ get_performance_history env db id (min k 0) = []
    ∧ get_history_default env db id = get_performance_history env db id 100 := by
  refine ⟨?_, ?_, ?_, ?_, rfl⟩
  · unfold get_performance_history
    cases hdb : env.dbInit
    · simp
    · by_cases hk : k ≤ 0
      · simp [hk]
      · simp only [hk, Bool.not_true, Bool.false_eq_true, if_false, if_neg]
        rw [List.all_eq_true]
        intro d hd
        have hd₁ := List.mem_of_mem_take hd
        have hd₂ := (List.mem_insertionSort descRel).mp hd₁
        exact (List.mem_filter.mp hd₂).2
  · unfold get_performance_history
    cases hdb : env.dbInit
    · simp
    · by_cases hk : k ≤ 0
      · simp [hk]
      · simp only [hk, Bool.not_true, Bool.false_eq_true, if_false, if_neg]
        exact ((List.sorted_insertionSort descRel _).sublist
          (List.take_sublist _ _))
  · unfold get_performance_history
    cases hdb : env.dbInit
    · simp
    · by_cases hk : k ≤ 0
      · simp [hk]
      · simp only [hk, Bool.not_true, Bool.false_eq_true, if_false, if_neg]
        exact List.length_take_le _ _
  · unfold get_performance_history
    cases hdb : env.dbInit <;> simp [min_le_right k 0]

/-- C6: `FirebaseConfig.validate` fails with the missing-parameter error for an
absent project identifier, fails with the missing-parameter error for an
absent credential path, fails with the credential-not-found error when the
path is set but names no file, returns normally on success, and in no case —
failure or success — performs an authentication or a store connection. -/
theorem validate_config_gate (cfg : FirebaseConfig) (fs : String → Bool) :
    (optStrFalsy cfg.project_id = true →
      (cfg.validate fs).1 =
        Except.error (ConfigError.missingParameter "FIREBASE_PROJECT_ID"))
    ∧ (optStrFalsy cfg.project_id = false →
      optStrFalsy cfg.credentials_path = true →
      (cfg.validate fs).1 =
        Except.error (ConfigError.missingParameter "FIREBASE_CREDENTIALS_PATH"))
    ∧ (optStrFalsy cfg.project_id = false →
      optStrFalsy cfg.credentials_path = false →
      fs (cfg.credentials_path.getD "") = false →
      (cfg.validate fs).1 = Except.error
        (ConfigError.credentialNotFound (cfg.credentials_path.getD "")))
    ∧ (optStrFalsy cfg.project_id = false →
      optStrFalsy cfg.credentials_path = false →
      fs (cfg.credentials_path.getD "") = true →
      (cfg.validate fs).1 = Except.ok true)
    ∧ Effect.connect ∉ (cfg.validate fs).2
    ∧ Effect.authenticate ∉ (cfg.validate fs).2 := by
  unfold FirebaseConfig.validate
  refine ⟨fun h₁ => by simp [h₁], fun h₁ h₂ => by simp [h₁, h₂],
    fun h₁ h₂ h₃ => by simp [h₁, h₂, h₃], fun h₁ h₂ h₃ => by simp [h₁, h₂, h₃],
    ?_, ?_⟩
  · cases h₁ : optStrFalsy cfg.project_id
    · cases h₂ : optStrFalsy cfg.credentials_path
      · cases h₃ : fs (cfg.credentials_path.getD "") <;> simp [h₁, h₂, h₃]
      · simp [h₁, h₂]
    · simp [h₁]
  · cases h₁ : optStrFalsy cfg.project_id
    · cases h₂ : optStrFalsy cfg.credentials_path
      · cases h₃ : fs (cfg.credentials_path.getD "") <;> simp [h₁, h₂, h₃]
      · simp [h₁, h₂]
    · simp [h₁]

/-- C7: when an app is already registered process-wide, `initialize_firebase`
returns that app with the process state unchanged and performs no
authentication (no credential load, no duplicate registration); when none is
registered, it authenticates, constructs the app from the configured project
id, and registers it process-wide. -/
theorem initialize_idempotent_reuse (env : InitEnv) (ps : ProcessState)
    (cfg : FirebaseConfig) :
    (ps.apps.isEmpty = false → env.clientError = none →
      initialize_firebase env ps cfg =
        (Except.ok (ps.apps.headD { projectId := "" }, ps), [Effect.connect]))
    ∧ (ps.apps.isEmpty = true → env.certificateError = none →
      env.clientError = none →
      initialize_firebase env ps cfg =
        (Except.ok ({ projectId := cfg.project_id.getD "" },
          { apps := ps.apps ++ [{ projectId := cfg.project_id.getD "" }] }),
          [Effect.authenticate, Effect.connect]))
    ∧ (ps.apps.isEmpty = false →
      Effect.authenticate ∉ (initialize_firebase env ps cfg).2) := by
  refine ⟨fun h₁ h₂ => ?_, fun h₁ h₂ h₃ => ?_, fun h₁ => ?_⟩
  · simp [initialize_firebase, h₁, h₂]
  · simp [initialize_firebase, h₁, h₂, h₃]
  · unfold initialize_firebase
    cases h₂ : env.clientError <;> simp [h₁, h₂]

/-- C8 counterexample: a `save_network_state` call with an empty `network_id`
on a healthy store reports success (returns True) and the write proceeds —
refuting the claim that a non-empty `network_id` is a precondition enforced
before the write. -/
theorem save_empty_id_reports_success_cex :
    (save_network_state envC1 dbEmpty "" [("w", Val.num 1)]).1 = true := by
  rfl

/-- C8 (amended): `save_network_state` performs no validation of `network_id`;
a call with an empty id proceeds to the write, reports success whenever the
store accepts the write, and stores the stamped payload under the empty key. -/
theorem save_empty_id_proceeds (env : Env) (db : Firestore) (p : Doc)
    (h₁ : env.dbInit = true) (h₂ : env.setError = none) :
    (save_network_state env db "" p).1 = true
    ∧ assocGet (save_network_state env db "" p).2.1.stateDocs "" =
      some (stampState env "" p) := by
  rw [save_network_state_ok env db "" p h₁ h₂]
  exact ⟨rfl, assocGet_assocSet_self db.stateDocs "" (stampState env "" p)⟩

/-- C8 witness: the amended claim at a concrete healthy call. -/
theorem save_empty_id_proceeds_wit :
    (save_network_state envC1 dbEmpty "" [("w", Val.num 1)]).1 = true
    ∧ assocGet (save_network_state envC1 dbEmpty ""
        [("w", Val.num 1)]).2.1.stateDocs "" =
      some (stampState envC1 "" [("w", Val.num 1)]) :=
  save_empty_id_proceeds envC1 dbEmpty [("w", Val.num 1)] rfl rfl

/-- C9 counterexample: a save during which the store raises a `FirebaseError`
(store unreachable) and a save during which an unexpected non-Firebase
exception is raised (e.g. a serialization failure) produce identical
observable results — both return False with the store and the payload in the
same state — refuting the claim that the two failure classes are
distinguishable at the `save_network_state` interface. -/
theorem save_error_classes_indistinguishable_cex :
    save_network_state envSetErrFb dbEmpty "n1" [("w", Val.num 1)] =
      save_network_state envSetErrOther dbEmpty "n1" [("w", Val.num 1)]
    ∧ (save_network_state envSetErrOther dbEmpty "n1" [("w", Val.num 1)]).1 =
      false := by
  exact ⟨rfl, rfl⟩

/-- C9 (amended): `save_network_state` reports every raised error — the
Firebase store-unreachable class and the unexpected class alike — as the
result False rather than raising, and the two classes yield identical results
at its interface (they are not distinguishable there). -/
theorem save_reports_false_on_any_error (env : Env) (db : Firestore)
    (id : String) (p : Doc) (e : PyErr)
    (h₁ : env.dbInit = true) (h₂ : env.setError = some e) :
    (save_network_state env db id p).1 = false
    ∧ save_network_state { env with setError := some PyErr.firebaseError }
        db id p =
      save_network_state { env with setError := some PyErr.otherError }
        db id p := by
  constructor
  · simp [save_network_state, h₁, h₂]
  · simp [save_network_state, stampState, h₁]

/-- C9 witness: the amended claim at a concrete erroring call. -/
theorem save_reports_false_on_any_error_wit :
    (save_network_state envSetErrFb dbEmpty "n1" [("w", Val.num 1)]).1 = false
    ∧ save_network_state
        { envSetErrFb with setError := some PyErr.firebaseError }
        dbEmpty "n1" [("w", Val.num 1)] =
      save_network_state
        { envSetErrFb with setError := some PyErr.otherError }
        dbEmpty "n1" [("w", Val.num 1)] :=
  save_reports_false_on_any_error envSetErrFb dbEmpty "n1" [("w", Val.num 1)]
    PyErr.firebaseError rfl rfl

/-- C10: whenever the stamping lines are reached (the client is initialized),
both save operations mutate the caller's dictionary in place — after the call,
whether it succeeded or failed, the caller's dictionary is exactly the stamped
version of its previous contents, carrying `last_updated` (respectively
`timestamp`) set to the call's clock reading and `network_id` set to the
argument, overwriting any caller-supplied values under those keys. -/
theorem save_mutates_caller_dict (env : Env) (db : Firestore) (id : String)
    (state p : Doc) (h : env.dbInit = true) :
    (save_network_state env db id state).2.2 = stampState env id state
    ∧ assocGet (save_network_state env db id state).2.2 "last_updated" =
      some (Val.time env.clientClock)
    ∧ assocGet (save_network_state env db id state).2.2 "network_id" =
      some (Val.str id)
    ∧ (save_performance_metrics env db id p).2.2 = stampMetrics env id p
    ∧ assocGet (save_performance_metrics env db id p).2.2 "timestamp" =
      some (Val.time env.clientClock)
    ∧ assocGet (save_performance_metrics env db id p).2.2 "network_id" =
      some (Val.str id) := by
  have hs : (save_network_state env db id state).2.2 = stampState env id state := by
    unfold save_network_state
    cases he : env.setError <;> simp [h, he]
  have hm : (save_performance_metrics env db id p).2.2 = stampMetrics env id p := by
    unfold save_performance_metrics
    cases he : env.setError <;> simp [h, he]
  rw [hs, hm]
  exact ⟨rfl, stampState_get_last_updated env id state,
    stampState_get_network_id env id state, rfl,
    stampMetrics_get_timestamp env id p, stampMetrics_get_network_id env id p⟩

/-- C10 witness: a failing call (the store raises on the write) with payloads
that already carry values under the stamped keys still leaves the caller's
dictionaries stamped, their prior values overwritten. -/
theorem save_mutates_caller_dict_wit :
    (save_network_state envSetErrFb dbEmpty "n1"
        [("network_id", Val.str "old")]).2.2 =
      stampState envSetErrFb "n1" [("network_id", Val.str "old")]
    ∧ assocGet (save_network_state envSetErrFb dbEmpty "n1"
        [("network_id", Val.str "old")]).2.2 "last_updated" =
      some (Val.time envSetErrFb.clientClock)
    ∧ assocGet (save_network_state envSetErrFb dbEmpty "n1"
        [("network_id", Val.str "old")]).2.2 "network_id" =
      some (Val.str "n1")
    ∧ (save_performance_metrics envSetErrFb dbEmpty "n1"
        [("timestamp", Val.time 99)]).2.2 =
      stampMetrics envSetErrFb "n1" [("timestamp", Val.time 99)]
    ∧ assocGet (save_performance_metrics envSetErrFb dbEmpty "n1"
        [("timestamp", Val.time 99)]).2.2 "timestamp" =
      some (Val.time envSetErrFb.clientClock)
    ∧ assocGet (save_performance_metrics envSetErrFb dbEmpty "n1"
        [("timestamp", Val.time 99)]).2.2 "network_id" =
      some (Val.str "n1") :=
  save_mutates_caller_dict envSetErrFb dbEmpty "n1"
    [("network_id", Val.str "old")] [("timestamp", Val.time 99)] rfl
